import Mathlib

set_option maxRecDepth 100000

/-!
Verification of the b2b-audit email-deliverability auditor.

The source is a single serverless handler that runs five DNS checks
(SPF, DMARC, DKIM, MX, blacklists) against a domain and aggregates a
weighted 0-100 score.  Each check is embedded here as a pure function of
its DNS outcome; DNS calls are modelled by `Except DnsErr` values (or a
resolver function for the fan-out checks), since each check's logic is a
pure function of what the resolver returned.
-/

/-- Outcome category of a check, `status` field of a check result. -/
inductive Status where
  | pass
  | warn
  | fail
  | error
deriving DecidableEq, Repr

/-- Evidence payload stored in the `raw` field: SPF/DMARC/MX store lists of
strings, DKIM stores selector/record pairs, the blacklist check stores the
listed/clean partition. -/
inductive RawPayload where
  | strs (l : List String)
  | sels (l : List (String × String))
  | parts (listed clean : List String)
deriving DecidableEq, Repr

/-- The universal output unit of every check (the object literals returned
by checkSPF, checkDMARC, checkDKIM, checkMX, checkBlacklists). -/
structure CheckResult where
  name : String
  status : Status
  summary : String
  detail : String
  fix : Option String := none
  raw : Option RawPayload := none
deriving DecidableEq, Repr

/-- A DNS resolution failure: the error object caught from the resolver,
carrying its `code` and `message`. -/
structure DnsErr where
  code : String
  message : String
deriving DecidableEq, Repr

/-- The `err.code === ENODATA || err.code === ENOTFOUND` test used by the
catch blocks of checkSPF, checkDMARC and checkMX. -/
def isNotFound (e : DnsErr) : Bool :=
  e.code == "ENODATA" || e.code == "ENOTFOUND"

/-- Whether a DNS probe resolved (promise fulfilled) rather than failed. -/
def dnsOk {α : Type} : Except DnsErr α → Bool
  | .ok _ => true
  | .error _ => false

/-- JavaScript `r.join('')`: concatenate the chunk strings of one TXT
record into a single string. -/
def concatAll : List String → String
  | [] => ""
  | s :: rest => s ++ concatAll rest

/-- JavaScript `s.startsWith(p)`. -/
def startsWithStr (s p : String) : Bool :=
  p.data.isPrefixOf s.data

/-- JavaScript `s.includes(sub)`: `sub` occurs as a contiguous substring. -/
def containsStr (s sub : String) : Bool :=
  decide (sub.data <:+: s.data)

/-- Fuel-driven core of the non-overlapping substring counter.  At each
position, if `sub` matches there, count it and skip past the match,
otherwise advance one character.  The fuel (initialised to the string
length, which bounds the number of steps) only makes the recursion
structural. -/
def countOccAux (sub : List Char) : Nat → List Char → Nat
  | _, [] => 0
  | 0, _ => 0
  | fuel + 1, c :: rest =>
    if sub.isPrefixOf (c :: rest) then
      1 + countOccAux sub fuel (rest.drop (sub.length - 1))
    else
      countOccAux sub fuel rest

/-- JavaScript `s.split(k).length - 1` for a nonempty separator `k`: the
number of non-overlapping, leftmost occurrences of `k` in `s`. -/
def countOcc (sub s : List Char) : Nat :=
  countOccAux sub s.length s

/-- JavaScript `list.join(sep)`. -/
def joinSep (sep : String) : List String → String
  | [] => ""
  | [x] => x
  | x :: y :: rest => x ++ sep ++ joinSep sep (y :: rest)

/-- The ECMAScript whitespace class `\s` (also the set trimmed by
`String.prototype.trim`): ASCII whitespace plus the Unicode space
separators, line separators and the BOM. -/
def isWsChar (c : Char) : Bool :=
  c == ' ' || c == '\t' || c == '\n' || c == '\r' ||
  c == '\x0b' || c == '\x0c' || c == ' ' || c == ' ' ||
  (decide (' ' ≤ c) && decide (c ≤ ' ')) ||
  c == ' ' || c == ' ' || c == ' ' || c == ' ' ||
  c == '　' || c == '﻿'

/-- The ECMAScript word-character class `\w`, i.e. `[A-Za-z0-9_]`. -/
def isWordChar (c : Char) : Bool :=
  (decide ('a' ≤ c) && decide (c ≤ 'z')) ||
  (decide ('A' ≤ c) && decide (c ≤ 'Z')) ||
  (decide ('0' ≤ c) && decide (c ≤ '9')) ||
  c == '_'

/-- `[a-zA-Z]` of the domain-validation regular expression. -/
def isAlphaChar (c : Char) : Bool :=
  (decide ('a' ≤ c) && decide (c ≤ 'z')) ||
  (decide ('A' ≤ c) && decide (c ≤ 'Z'))

/-- `[a-zA-Z0-9]` of the domain-validation regular expression. -/
def isAlnumChar (c : Char) : Bool :=
  isAlphaChar c || (decide ('0' ≤ c) && decide (c ≤ '9'))

/-- `[a-zA-Z0-9-]` of the domain-validation regular expression. -/
def isLabelChar (c : Char) : Bool :=
  isAlnumChar c || c == '-'

/-- JavaScript `s.toLowerCase()` restricted to ASCII case mapping, which
covers every string the checks construct or compare. -/
def toLowerStr (s : String) : String :=
  ⟨s.data.map Char.toLower⟩

/-- JavaScript `s.trim()`: strip `\s` characters from both ends. -/
def trimStr (s : String) : String :=
  ⟨((s.data.dropWhile isWsChar).reverse.dropWhile isWsChar).reverse⟩

/-- JavaScript `s.substring(0, n)`. -/
def takeStr (s : String) (n : Nat) : String :=
  ⟨s.data.take n⟩

/-- The per-check weight table of calculateScore; an unrecognized check
name falls through to the defensive default 20 (in the source,
`weights[check.name] || 20`; no listed weight is zero, so the lookup
default is exactly 20). -/
def weightOf (name : String) : Nat :=
  match name with
  | "SPF Record" => 25
  | "DMARC Record" => 30
  | "DKIM Records" => 20
  | "Mail Server (MX)" => 10
  | "Blacklist Check" => 15
  | _ => 20

/-- Twice a check's score contribution: `pass` adds the full weight,
`warn` adds `weight * 0.5`, `fail` and `error` add nothing.  Working in
half-units keeps the arithmetic in ℕ; the total in the source is always a
multiple of one half. -/
def contrib2 (c : CheckResult) : Nat :=
  if c.status = .pass then 2 * weightOf c.name
  else if c.status = .warn then weightOf c.name
  else 0

/-- calculateScore: the rounded sum of the weighted contributions.  The
source computes `Math.round(total)` with `total = (Σ contrib2) / 2`; for a
nonnegative multiple of one half, rounding half away from zero is
`(Σ contrib2 + 1) / 2` in integer arithmetic. -/
def calculateScore (checks : List CheckResult) : Nat :=
  ((checks.map contrib2).sum + 1) / 2

/-- checkSPF branch for exactly one SPF record: warn on a `+all`
mechanism, warn when the lookup-mechanism count exceeds 10, otherwise
pass, the detail noting hardfail vs softfail. -/
def spfLookupCount (spf : String) : Nat :=
  (["include:", "a:", "mx:", "ptr:", "redirect="].map
    (fun k => countOcc k.data spf.data)).sum

/-- The single-record branch of checkSPF (lines 91-126 of the source). -/
def spfOne (spf : String) : CheckResult :=
  if containsStr spf "+all" then
    { name := "SPF Record", status := .warn,
      summary := "SPF record is too permissive (+all)",
      detail := "Your SPF record ends with +all, which means ANY server is authorized to send as your domain. This defeats the purpose of SPF.",
      fix := some "Change +all to ~all (softfail) or -all (hardfail).",
      raw := some (.strs [spf]) }
  else if spfLookupCount spf > 10 then
    { name := "SPF Record", status := .warn,
      summary := "SPF record has too many lookups (" ++ toString (spfLookupCount spf) ++ "/10)",
      detail := "SPF allows a maximum of 10 DNS lookups. Exceeding this causes SPF to fail silently, which hurts deliverability.",
      fix := some "Flatten your SPF record by replacing include: directives with direct IP ranges where possible.",
      raw := some (.strs [spf]) }
  else
    { name := "SPF Record", status := .pass,
      summary := "SPF record configured correctly",
      detail := "Found valid SPF record with " ++ toString (spfLookupCount spf) ++ " DNS lookups (max 10). " ++
        (if containsStr spf "-all" then "Hardfail (-all) policy is set — strictest protection."
         else "Softfail (~all) policy is set — good baseline."),
      raw := some (.strs [spf]) }

/-- The dispatch of checkSPF on the filtered SPF records: zero records
fail, more than one warn (invalid per the single-record rule), exactly
one is inspected by the single-record branch. -/
def spfOfFlat : List String → CheckResult
  | [] =>
    { name := "SPF Record", status := .fail,
      summary := "No SPF record found",
      detail := "Without SPF, receiving servers cannot verify which mail servers are authorized to send email for your domain. This significantly increases the chance of your emails being flagged as spam.",
      fix := some "Add a TXT record to your DNS: v=spf1 include:_spf.google.com ~all (adjust for your email provider)." }
  | [spf] => spfOne spf
  | f1 :: f2 :: rest =>
    { name := "SPF Record", status := .warn,
      summary := "Multiple SPF records found",
      detail := "Found " ++ toString (f1 :: f2 :: rest).length ++ " SPF records. Having more than one SPF record is invalid per RFC 7208 and may cause authentication failures.",
      fix := some "Merge all SPF records into a single TXT record.",
      raw := some (.strs (f1 :: f2 :: rest)) }

/-- checkSPF: resolve the domain TXT records, keep those starting with
`v=spf1`, and dispatch on how many there are; the catch block maps
not-found DNS errors to `fail` and everything else to `error`. -/
def checkSPF (txt : Except DnsErr (List (List String))) : CheckResult :=
  match txt with
  | .error e =>
    if isNotFound e then
      { name := "SPF Record", status := .fail,
        summary := "No SPF record found",
        detail := "Could not find any TXT records for this domain. This means email authentication is completely missing.",
        fix := some "Add a TXT record with your SPF policy. Consult your email provider for the correct include: directive." }
    else
      { name := "SPF Record", status := .error,
        summary := "Could not check SPF", detail := e.message }
  | .ok records =>
    spfOfFlat ((records.map concatAll).filter (fun r => startsWithStr r "v=spf1"))

/-- After a semicolon, the rest of the pattern `;\s*p=(\w+)`: skip the
whitespace run, require the literal `p=`, and capture the (nonempty,
maximal) run of word characters. -/
def policyAfterSemi (l : List Char) : Option (List Char) :=
  match l.dropWhile isWsChar with
  | 'p' :: '=' :: r =>
    match r.takeWhile isWordChar with
    | [] => none
    | tok => some tok
  | _ => none

/-- `dmarc.match(/;\s*p=(\w+)/)`: scan left to right for the first
position where a semicolon, optional whitespace, `p=` and at least one
word character match, returning the captured token. -/
def findPolicy : List Char → Option (List Char)
  | [] => none
  | c :: rest =>
    if c = ';' then
      match policyAfterSemi rest with
      | some tok => some tok
      | none => findPolicy rest
    else findPolicy rest

/-- `policyMatch ? policyMatch[1] : 'none'`: the captured policy token,
defaulting to `none` when the pattern does not match. -/
def dmarcPolicy (dmarc : String) : String :=
  match findPolicy dmarc.data with
  | some tok => ⟨tok⟩
  | none => "none"

/-- The first-matching-record branch of checkDMARC (lines 157-199). -/
def dmarcOne (dmarc : String) : CheckResult :=
  let policy := dmarcPolicy dmarc
  let hasRua := containsStr dmarc "rua="
  if policy = "none" then
    { name := "DMARC Record", status := .warn,
      summary := "DMARC policy set to \"none\" (monitoring only)",
      detail := "Your DMARC record exists but the policy is set to \"none\", which means failed emails are still delivered. This is fine for initial monitoring, but won\x27t protect your domain reputation long-term." ++
        (if hasRua then " Reporting (rua) is configured — good." else " No reporting address (rua) configured."),
      fix := some "Once you\x27ve confirmed legitimate mail is passing, upgrade to p=quarantine or p=reject.",
      raw := some (.strs [dmarc]) }
  else if policy = "quarantine" then
    { name := "DMARC Record", status := .pass,
      summary := "DMARC set to quarantine — good protection",
      detail := "Emails failing authentication will be sent to spam. " ++
        (if hasRua then "Reporting is active." else "Consider adding a rua= address for monitoring."),
      raw := some (.strs [dmarc]) }
  else if policy = "reject" then
    { name := "DMARC Record", status := .pass,
      summary := "DMARC set to reject — strongest protection",
      detail := "Emails failing authentication will be rejected entirely. This is the gold standard. " ++
        (if hasRua then "Reporting is active." else "Consider adding a rua= address to monitor rejected mail."),
      raw := some (.strs [dmarc]) }
  else
    { name := "DMARC Record", status := .pass,
      summary := "DMARC record found with policy: " ++ policy,
      detail := dmarc,
      raw := some (.strs [dmarc]) }

/-- The dispatch of checkDMARC on the filtered DMARC records: zero
matches fail, otherwise only the first match is inspected. -/
def dmarcOfFlat : List String → CheckResult
  | [] =>
    { name := "DMARC Record", status := .fail,
      summary := "No DMARC record found",
      detail := "DMARC tells receiving servers what to do when SPF or DKIM checks fail. Without it, your domain is vulnerable to spoofing and your deliverability suffers. Google and Yahoo now require DMARC for bulk senders.",
      fix := some "Add a TXT record at _dmarc.yourdomain.com: v=DMARC1; p=quarantine; rua=mailto:dmarc@yourdomain.com" }
  | dmarc :: _ => dmarcOne dmarc

/-- checkDMARC: resolve TXT at the `_dmarc.` subdomain, keep records
starting with `v=DMARC1`, fail on zero matches, otherwise inspect only
the first; the catch block maps not-found to `fail`, the rest to
`error`. -/
def checkDMARC (txt : Except DnsErr (List (List String))) : CheckResult :=
  match txt with
  | .error e =>
    if isNotFound e then
      { name := "DMARC Record", status := .fail,
        summary := "No DMARC record found",
        detail := "DMARC is now required by Google and Yahoo for bulk senders (5,000+ emails/day). Even below that threshold, missing DMARC significantly hurts inbox placement.",
        fix := some "Add a TXT record at _dmarc.yourdomain.com with at minimum: v=DMARC1; p=none; rua=mailto:dmarc@yourdomain.com" }
    else
      { name := "DMARC Record", status := .error,
        summary := "Could not check DMARC", detail := e.message }
  | .ok records =>
    dmarcOfFlat ((records.map concatAll).filter (fun r => startsWithStr r "v=DMARC1"))

/-- The fixed dictionary of commonly used DKIM selector names probed by
checkDKIM. -/
def commonSelectors : List String :=
  ["google", "default", "selector1", "selector2", "k1", "k2",
   "mail", "dkim", "s1", "s2", "smtp", "mandrill", "mailjet",
   "amazonses", "cm", "zendesk1", "zendesk2", "everlytickey1", "everlytickey2",
   "sig1", "mxvault"]

/-- One DKIM selector probe: a failed lookup contributes nothing; a
successful lookup is a hit when some flattened record contains the DKIM
version tag or a `p=` field, recording the selector and a truncated
preview of the first record.  The `resolve` argument abstracts the TXT
lookup of `<selector>._domainkey.<domain>`. -/
def dkimProbe (resolve : String → Except DnsErr (List (List String)))
    (selector : String) : Option (String × String) :=
  match resolve selector with
  | .error _ => none
  | .ok records =>
    match records.map concatAll with
    | [] => none
    | f :: rest =>
      if (f :: rest).any (fun r => containsStr r "v=DKIM1" || containsStr r "p=") then
        some (selector, takeStr f 120 ++ "...")
      else none

/-- The accumulated hit list of checkDKIM over the selector dictionary. -/
def dkimFound (resolve : String → Except DnsErr (List (List String))) :
    List (String × String) :=
  commonSelectors.filterMap (dkimProbe resolve)

/-- checkDKIM: zero hits warn (absence is not provable), one or more hits
pass naming every matched selector; there is no error branch. -/
def dkimOfFound : List (String × String) → CheckResult
  | [] =>
    { name := "DKIM Records", status := .warn,
      summary := "No DKIM records found for common selectors",
      detail := "DKIM signing could not be verified using common selectors (google, default, selector1, selector2, etc.). DKIM may still be configured with a custom selector. However, if DKIM is truly missing, your emails lack cryptographic authentication.",
      fix := some "Enable DKIM signing through your email provider. For Google Workspace: Admin Console → Apps → Google Workspace → Gmail → Authenticate email. For Microsoft 365: Defender portal → Email authentication." }
  | f :: rest =>
    { name := "DKIM Records", status := .pass,
      summary := "DKIM configured (" ++ toString (f :: rest).length ++ " selector" ++
        (if (f :: rest).length > 1 then "s" else "") ++ " found: " ++
        joinSep ", " ((f :: rest).map Prod.fst) ++ ")",
      detail := "DKIM provides cryptographic authentication for your emails, proving they haven\x27t been tampered with in transit. Found active selector" ++
        (if (f :: rest).length > 1 then "s" else "") ++ ": " ++
        joinSep ", " ((f :: rest).map Prod.fst) ++ ".",
      raw := some (.sels (f :: rest)) }

/-- checkDKIM: probe every selector in the dictionary and dispatch on the
accumulated hit list. -/
def checkDKIM (resolve : String → Except DnsErr (List (List String))) : CheckResult :=
  dkimOfFound (dkimFound resolve)

/-- A mail-exchange record as returned by the MX resolver. -/
structure MxRecord where
  priority : Nat
  exchange : String
deriving DecidableEq, Repr

/-- Stable insertion into a priority-ascending list, placing the new
element after existing elements of equal priority, as the stable
`records.sort((a, b) => a.priority - b.priority)` does. -/
def insertMx (x : MxRecord) : List MxRecord → List MxRecord
  | [] => [x]
  | y :: ys =>
    if x.priority ≤ y.priority then x :: y :: ys else y :: insertMx x ys

/-- `records.sort((a, b) => a.priority - b.priority)`: stable ascending
sort by priority. -/
def sortMx : List MxRecord → List MxRecord
  | [] => []
  | x :: xs => insertMx x (sortMx xs)

/-- The provider-classification chain of checkMX over the lowercased
primary exchange hostname: first matching fragment wins, default
Unknown; returns the provider name and its advisory note. -/
def detectProvider (primary : String) : String × String :=
  if containsStr primary "google" || containsStr primary "gmail" then
    ("Google Workspace", "Google Workspace is a solid choice for cold outbound with proper warm-up.")
  else if containsStr primary "outlook" || containsStr primary "microsoft" then
    ("Microsoft 365", "Microsoft 365 works well for outbound, especially with Outlook-to-Outlook sending.")
  else if containsStr primary "zoho" then
    ("Zoho Mail", "Zoho is functional but has lower sending reputation than Google/Microsoft for cold outbound.")
  else if containsStr primary "protonmail" || containsStr primary "proton" then
    ("ProtonMail", "ProtonMail prioritizes privacy but is limited for cold outbound campaigns.")
  else if containsStr primary "mimecast" then
    ("Mimecast", "Mimecast provides email security and filtering.")
  else if containsStr primary "barracuda" then
    ("Barracuda", "Barracuda is primarily an email security gateway.")
  else if containsStr primary "pphosted" || containsStr primary "proofpoint" then
    ("Proofpoint", "Proofpoint is an enterprise email security platform.")
  else
    ("Unknown", "")

/-- checkMX: fail on an empty record set (or a not-found DNS error), else
sort ascending by priority, classify the lowercased primary exchange, and
pass with the provider, record count, primary host and priority; other
DNS errors give `error`. -/
def checkMX (mx : Except DnsErr (List MxRecord)) : CheckResult :=
  match mx with
  | .error e =>
    if isNotFound e then
      { name := "Mail Server (MX)", status := .fail,
        summary := "No MX records found",
        detail := "This domain does not appear to have mail service configured.",
        fix := some "Add MX records for your email provider." }
    else
      { name := "Mail Server (MX)", status := .error,
        summary := "Could not check MX records", detail := e.message }
  | .ok records =>
    match records with
    | [] =>
      { name := "Mail Server (MX)", status := .fail,
        summary := "No MX records found",
        detail := "This domain has no mail exchange records, meaning it cannot receive email. This is a critical issue for any domain used for business communication.",
        fix := some "Configure MX records pointing to your email provider." }
    | r :: rs =>
      let sorted := sortMx (r :: rs)
      let primaryRec := sorted.headD r
      let primary := toLowerStr primaryRec.exchange
      let pv := detectProvider primary
      { name := "Mail Server (MX)", status := .pass,
        summary := pv.1 ++ " detected (" ++ toString (r :: rs).length ++ " MX record" ++
          (if (r :: rs).length > 1 then "s" else "") ++ ")",
        detail := "Primary mail server: " ++ primary ++ " (priority " ++
          toString primaryRec.priority ++ "). " ++ pv.2,
        raw := some (.strs (sorted.map (fun x => toString x.priority ++ " " ++ x.exchange))) }

/-- The fixed table of DNS blacklist zones probed by checkBlacklists. -/
def blTable : List (String × String) :=
  [("Spamhaus DBL", "dbl.spamhaus.org"),
   ("SURBL", "multi.surbl.org"),
   ("URIBL", "multi.uribl.com"),
   ("Spamcop", "bl.spamcop.net"),
   ("Barracuda", "b.barracudacentral.org")]

/-- The names of the zones whose existence probe (an A lookup of
`<domain>.<zone>`) resolved: being listed. -/
def listedNames (probe : String → Except DnsErr (List String)) : List String :=
  (blTable.filter (fun bl => dnsOk (probe bl.2))).map Prod.fst

/-- The names of the zones whose probe failed: not listed. -/
def cleanNames (probe : String → Except DnsErr (List String)) : List String :=
  (blTable.filter (fun bl => !dnsOk (probe bl.2))).map Prod.fst

/-- checkBlacklists: partition the five zones into listed/clean by
whether the existence probe resolves; any listing fails the check, a
clean sweep passes, the raw payload holding both partitions. -/
def checkBlacklists (probe : String → Except DnsErr (List String)) : CheckResult :=
  let listed := listedNames probe
  let clean := cleanNames probe
  if listed.length > 0 then
    { name := "Blacklist Check", status := .fail,
      summary := "Listed on " ++ toString listed.length ++ " blacklist" ++
        (if listed.length > 1 then "s" else "") ++ ": " ++ joinSep ", " listed,
      detail := "Your domain was found on: " ++ joinSep ", " listed ++ ". Being blacklisted severely impacts deliverability — most major email providers check these lists. Emails may be silently dropped or sent straight to spam.",
      fix := some "Visit each blacklist\x27s website to check your listing status and follow their delisting procedures. Also audit your sending practices — blacklisting usually indicates a history of spam complaints or poor list hygiene.",
      raw := some (.parts listed clean) }
  else
    { name := "Blacklist Check", status := .pass,
      summary := "Not listed on " ++ toString clean.length ++ " major blacklists",
      detail := "Checked against: " ++ joinSep ", " clean ++ ". Your domain is clean on all checked blacklists.",
      raw := some (.parts listed clean) }

/-- The tail of the domain-validation regular expression after its first
character: label characters `[a-zA-Z0-9-]*` up to the mandatory dot, then
a TLD `[a-zA-Z]{2,}` running to the end. -/
def validRest : List Char → Bool
  | [] => false
  | c :: rest =>
    if c = '.' then decide (2 ≤ rest.length) && rest.all isAlphaChar
    else isLabelChar c && validRest rest

/-- The handler's domain validation,
`/^[a-zA-Z0-9][a-zA-Z0-9-]*\.[a-zA-Z]{2,}$/.test(domain)`: one label
whose first character is alphanumeric and whose remaining characters are
alphanumeric or hyphen, a dot, and an alphabetic TLD of length at least
two. -/
def validDomain (s : String) : Bool :=
  match s.data with
  | [] => false
  | c :: rest => isAlnumChar c && validRest rest

/-- Lines 20-30 of the handler: reject a falsy or pattern-failing domain
before any check runs (`!domain || !re.test(domain)`), otherwise produce
`domain.toLowerCase().trim()`, the string every DNS lookup uses. -/
def handlerDomain (domain : String) : Option String :=
  if domain.isEmpty || !validDomain domain then none
  else some (trimStr (toLowerStr domain))

/-- Structural reading of the validation pattern
`^[a-zA-Z0-9][a-zA-Z0-9-]*\.[a-zA-Z]{2,}$`: one alphanumeric character,
then label characters, then a literal dot, then at least two alphabetic
characters running to the end of the string.  Stated independently of the
matcher so that `validDomain` can be proved to accept exactly these
strings. -/
def regexShape (l : List Char) : Prop :=
  ∃ c lab tld, l = c :: (lab ++ '.' :: tld) ∧ isAlnumChar c = true ∧
    lab.all isLabelChar = true ∧ 2 ≤ tld.length ∧ tld.all isAlphaChar = true

/-- Substring containment restated as list-infix. -/
theorem containsStr_iff {s sub : String} :
    containsStr s sub = true ↔ sub.data <:+: s.data := by
  simp [containsStr]

/-- Every element of a joined list is a substring of the join. -/
theorem infix_joinSep (sep : String) :
    ∀ (l : List String) (x : String), x ∈ l → x.data <:+: (joinSep sep l).data := by
  intro l
  induction l with
  | nil => intro x hx; cases hx
  | cons y ys ih =>
    intro x hx
    cases ys with
    | nil =>
      rw [List.mem_singleton.mp hx]
      exact List.infix_refl _
    | cons z zs =>
      rcases List.mem_cons.mp hx with h | h
      · subst h
        show x.data <:+: (x ++ sep ++ joinSep sep (z :: zs)).data
        rw [String.data_append, String.data_append, List.append_assoc]
        exact (List.prefix_append _ _).isInfix
      · have hrec := ih x h
        show x.data <:+: (y ++ sep ++ joinSep sep (z :: zs)).data
        rw [String.data_append]
        exact hrec.trans (List.suffix_append _ _).isInfix

/-- A substring of `b` is a substring of `a ++ b`. -/
theorem containsStr_append_right {a b sub : String}
    (h : containsStr b sub = true) : containsStr (a ++ b) sub = true := by
  rw [containsStr_iff] at h ⊢
  rw [String.data_append]
  exact h.trans (List.suffix_append _ _).isInfix

/-- A substring of `a` is a substring of `a ++ b`. -/
theorem containsStr_append_left {a b sub : String}
    (h : containsStr a sub = true) : containsStr (a ++ b) sub = true := by
  rw [containsStr_iff] at h ⊢
  rw [String.data_append]
  exact h.trans (List.prefix_append _ _).isInfix

/-- Stable insertion is a permutation of consing. -/
theorem insertMx_perm (x : MxRecord) :
    ∀ l : List MxRecord, (insertMx x l).Perm (x :: l) := by
  intro l
  induction l with
  | nil => simp [insertMx]
  | cons y ys ih =>
    by_cases h : x.priority ≤ y.priority
    · simp [insertMx, h]
    · simp only [insertMx, if_neg h]
      exact (List.Perm.cons y ih).trans (List.Perm.swap x y ys)

/-- The insertion sort of checkMX permutes its input. -/
theorem sortMx_perm : ∀ l : List MxRecord, (sortMx l).Perm l := by
  intro l
  induction l with
  | nil => simp [sortMx]
  | cons x xs ih =>
    exact (insertMx_perm x (sortMx xs)).trans (List.Perm.cons x ih)

/-- Stable insertion preserves priority-ascending sortedness. -/
theorem insertMx_sorted (x : MxRecord) :
    ∀ l : List MxRecord, List.Pairwise (fun a b => a.priority ≤ b.priority) l →
      List.Pairwise (fun a b : MxRecord => a.priority ≤ b.priority) (insertMx x l) := by
  intro l
  induction l with
  | nil => intro _; simp [insertMx]
  | cons y ys ih =>
    intro hp
    rcases List.pairwise_cons.mp hp with ⟨hy, hys⟩
    by_cases h : x.priority ≤ y.priority
    · rw [insertMx, if_pos h]
      refine List.pairwise_cons.mpr ⟨?_, hp⟩
      intro a ha
      rcases List.mem_cons.mp ha with rfl | ha
      · exact h
      · exact le_trans h (hy a ha)
    · rw [insertMx, if_neg h]
      refine List.pairwise_cons.mpr ⟨?_, ih hys⟩
      intro a ha
      have := (insertMx_perm x ys).mem_iff.mp ha
      rcases List.mem_cons.mp this with rfl | ha2
      · omega
      · exact hy a ha2

/-- The sorted MX list is priority-ascending. -/
theorem sortMx_sorted : ∀ l : List MxRecord,
    List.Pairwise (fun a b : MxRecord => a.priority ≤ b.priority) (sortMx l) := by
  intro l
  induction l with
  | nil => simp [sortMx]
  | cons x xs ih => exact insertMx_sorted x (sortMx xs) ih

/-- A check contributes at most its full weight (in half-units, twice the
weight). -/
theorem contrib2_le (c : CheckResult) : contrib2 c ≤ 2 * weightOf c.name := by
  rcases c with ⟨n, s, _, _, _, _⟩
  cases s <;> simp [contrib2]
  omega

/-- Claim C1: for five check results carrying the five canonical names,
the scorer adds per check the fixed weight (SPF 25, DMARC 30, DKIM 20,
MX 10, Blacklist 15) on `pass`, half on `warn`, zero on `fail`/`error`;
the rounded integer score always lies in 0..100, five passes score 100,
five fails 0, five warns 50, and an unrecognized name weighs 20. -/
theorem C1_calculateScore_weights :
    (∀ c1 c2 c3 c4 c5 : CheckResult,
      c1.name = "SPF Record" → c2.name = "DMARC Record" → c3.name = "DKIM Records" →
      c4.name = "Mail Server (MX)" → c5.name = "Blacklist Check" →
      calculateScore [c1, c2, c3, c4, c5] ≤ 100
      ∧ (c1.status = .pass → c2.status = .pass → c3.status = .pass →
          c4.status = .pass → c5.status = .pass →
          calculateScore [c1, c2, c3, c4, c5] = 100)
      ∧ (c1.status = .fail → c2.status = .fail → c3.status = .fail →
          c4.status = .fail → c5.status = .fail →
          calculateScore [c1, c2, c3, c4, c5] = 0)
      ∧ (c1.status = .warn → c2.status = .warn → c3.status = .warn →
          c4.status = .warn → c5.status = .warn →
          calculateScore [c1, c2, c3, c4, c5] = 50))
    ∧ (∀ n : String, n ≠ "SPF Record" → n ≠ "DMARC Record" → n ≠ "DKIM Records" →
        n ≠ "Mail Server (MX)" → n ≠ "Blacklist Check" → weightOf n = 20) := by
  constructor
  · intro c1 c2 c3 c4 c5 h1 h2 h3 h4 h5
    rcases c1 with ⟨n1, s1, u1, v1, f1, r1⟩
    rcases c2 with ⟨n2, s2, u2, v2, f2, r2⟩
    rcases c3 with ⟨n3, s3, u3, v3, f3, r3⟩
    rcases c4 with ⟨n4, s4, u4, v4, f4, r4⟩
    rcases c5 with ⟨n5, s5, u5, v5, f5, r5⟩
    subst h1 h2 h3 h4 h5
    refine ⟨?_, ?_, ?_, ?_⟩
    · have b1 : contrib2 ⟨"SPF Record", s1, u1, v1, f1, r1⟩ ≤ 50 := by
        simpa [weightOf] using contrib2_le ⟨"SPF Record", s1, u1, v1, f1, r1⟩
      have b2 : contrib2 ⟨"DMARC Record", s2, u2, v2, f2, r2⟩ ≤ 60 := by
        simpa [weightOf] using contrib2_le ⟨"DMARC Record", s2, u2, v2, f2, r2⟩
      have b3 : contrib2 ⟨"DKIM Records", s3, u3, v3, f3, r3⟩ ≤ 40 := by
        simpa [weightOf] using contrib2_le ⟨"DKIM Records", s3, u3, v3, f3, r3⟩
      have b4 : contrib2 ⟨"Mail Server (MX)", s4, u4, v4, f4, r4⟩ ≤ 20 := by
        simpa [weightOf] using contrib2_le ⟨"Mail Server (MX)", s4, u4, v4, f4, r4⟩
      have b5 : contrib2 ⟨"Blacklist Check", s5, u5, v5, f5, r5⟩ ≤ 30 := by
        simpa [weightOf] using contrib2_le ⟨"Blacklist Check", s5, u5, v5, f5, r5⟩
      simp only [calculateScore, List.map_cons, List.map_nil, List.sum_cons, List.sum_nil]
      omega
    · intro p1 p2 p3 p4 p5
      subst p1 p2 p3 p4 p5
      simp [calculateScore, contrib2, weightOf]
    · intro p1 p2 p3 p4 p5
      subst p1 p2 p3 p4 p5
      simp [calculateScore, contrib2, weightOf]
    · intro p1 p2 p3 p4 p5
      subst p1 p2 p3 p4 p5
      simp [calculateScore, contrib2, weightOf]
  · intro n h1 h2 h3 h4 h5
    unfold weightOf
    split <;> simp_all

/-- Witness for C1: a concrete all-pass audit scores 100 and a concrete
unrecognized name weighs 20. -/
theorem C1_calculateScore_weights_witness :
    calculateScore
      [⟨"SPF Record", .pass, "", "", none, none⟩,
       ⟨"DMARC Record", .pass, "", "", none, none⟩,
       ⟨"DKIM Records", .pass, "", "", none, none⟩,
       ⟨"Mail Server (MX)", .pass, "", "", none, none⟩,
       ⟨"Blacklist Check", .pass, "", "", none, none⟩] = 100
    ∧ weightOf "Custom Check" = 20 :=
  ⟨(C1_calculateScore_weights.1
      ⟨"SPF Record", .pass, "", "", none, none⟩
      ⟨"DMARC Record", .pass, "", "", none, none⟩
      ⟨"DKIM Records", .pass, "", "", none, none⟩
      ⟨"Mail Server (MX)", .pass, "", "", none, none⟩
      ⟨"Blacklist Check", .pass, "", "", none, none⟩
      rfl rfl rfl rfl rfl).2.1 rfl rfl rfl rfl rfl,
   C1_calculateScore_weights.2 "Custom Check"
     (by decide) (by decide) (by decide) (by decide) (by decide)⟩

/-- Claim C2: with exactly one SPF record, `+all` always warns, a lookup
count over 10 warns naming the count, and a count of at most 10 passes
with the detail noting hardfail vs softfail; a record with eleven
`include:` mechanisms warns with "11/10" in the summary while ten pass. -/
theorem C2_checkSPF_single_record :
    (∀ (records : List (List String)) (s : String),
      (records.map concatAll).filter (fun r => startsWithStr r "v=spf1") = [s] →
      (containsStr s "+all" = true →
        (checkSPF (.ok records)).status = .warn
        ∧ (checkSPF (.ok records)).summary = "SPF record is too permissive (+all)")
      ∧ (containsStr s "+all" = false → 10 < spfLookupCount s →
        (checkSPF (.ok records)).status = .warn
        ∧ (checkSPF (.ok records)).summary =
            "SPF record has too many lookups (" ++ toString (spfLookupCount s) ++ "/10)")
      ∧ (containsStr s "+all" = false → spfLookupCount s ≤ 10 →
        (checkSPF (.ok records)).status = .pass
        ∧ (containsStr s "-all" = true →
            containsStr (checkSPF (.ok records)).detail "Hardfail (-all)" = true)
        ∧ (containsStr s "-all" = false →
            containsStr (checkSPF (.ok records)).detail "Softfail (~all)" = true)))
    ∧ spfLookupCount "v=spf1 include:u1 include:u2 include:u3 include:u4 include:u5 include:u6 include:u7 include:u8 include:u9 include:u10 include:u11 ~all" = 11
    ∧ containsStr (checkSPF (.ok [["v=spf1 include:u1 include:u2 include:u3 include:u4 include:u5 include:u6 include:u7 include:u8 include:u9 include:u10 include:u11 ~all"]])).summary "11/10" = true
    ∧ (checkSPF (.ok [["v=spf1 include:u1 include:u2 include:u3 include:u4 include:u5 include:u6 include:u7 include:u8 include:u9 include:u10 include:u11 ~all"]])).status = .warn
    ∧ spfLookupCount "v=spf1 include:u1 include:u2 include:u3 include:u4 include:u5 include:u6 include:u7 include:u8 include:u9 include:u10 ~all" = 10
    ∧ (checkSPF (.ok [["v=spf1 include:u1 include:u2 include:u3 include:u4 include:u5 include:u6 include:u7 include:u8 include:u9 include:u10 ~all"]])).status = .pass := by
  refine ⟨?_, by decide, by decide, by decide, by decide, by decide⟩
  intro records s hf
  have hc : checkSPF (.ok records) = spfOne s := by
    simp only [checkSPF, hf, spfOfFlat]
  refine ⟨?_, ?_, ?_⟩
  · intro hall
    rw [hc]
    simp [spfOne, hall]
  · intro hall hcnt
    rw [hc]
    simp [spfOne, hall, hcnt]
  · intro hall hcnt
    have hgt : ¬ (spfLookupCount s > 10) := by omega
    rw [hc]
    refine ⟨by simp [spfOne, hall, hgt], ?_, ?_⟩
    · intro hdash
      simp only [spfOne, hall, Bool.false_eq_true, if_false, hgt, hdash, if_true]
      exact containsStr_append_right (by decide)
    · intro hdash
      simp only [spfOne, hall, Bool.false_eq_true, if_false, hgt, hdash, if_true]
      exact containsStr_append_right (by decide)

/-- Witness for C2: a concrete `+all` record warns and a concrete clean
record passes. -/
theorem C2_checkSPF_single_record_witness :
    (checkSPF (.ok [["v=spf1 +all"]])).status = .warn
    ∧ (checkSPF (.ok [["v=spf1 include:_spf.google.com -all"]])).status = .pass :=
  ⟨((C2_checkSPF_single_record.1 [["v=spf1 +all"]] "v=spf1 +all" (by decide)).1
      (by decide)).1,
   ((C2_checkSPF_single_record.1 [["v=spf1 include:_spf.google.com -all"]]
      "v=spf1 include:_spf.google.com -all" (by decide)).2.2
      (by decide) (by decide)).1⟩

/-- Claim C3: with matching DMARC records only the first is inspected;
the `p=` policy is extracted by pattern match defaulting to `none`;
policy `none` warns, `quarantine` and `reject` pass (the latter naming
reject in the summary), any other policy passes echoing the literal
policy; zero matches fail. -/
theorem C3_checkDMARC_policy :
    (∀ records : List (List String),
      (records.map concatAll).filter (fun r => startsWithStr r "v=DMARC1") = [] →
      (checkDMARC (.ok records)).status = .fail)
    ∧ (∀ (records : List (List String)) (d : String) (rest : List String),
      (records.map concatAll).filter (fun r => startsWithStr r "v=DMARC1") = d :: rest →
      checkDMARC (.ok records) = dmarcOne d
      ∧ (findPolicy d.data = none → dmarcPolicy d = "none")
      ∧ (dmarcPolicy d = "none" → (checkDMARC (.ok records)).status = .warn)
      ∧ (dmarcPolicy d = "quarantine" → (checkDMARC (.ok records)).status = .pass)
      ∧ (dmarcPolicy d = "reject" →
          (checkDMARC (.ok records)).status = .pass
          ∧ containsStr (checkDMARC (.ok records)).summary "reject" = true)
      ∧ (dmarcPolicy d ≠ "none" → dmarcPolicy d ≠ "quarantine" → dmarcPolicy d ≠ "reject" →
          (checkDMARC (.ok records)).status = .pass
          ∧ containsStr (checkDMARC (.ok records)).summary (dmarcPolicy d) = true)) := by
  constructor
  · intro records h
    simp [checkDMARC, h, dmarcOfFlat]
  · intro records d rest hf
    have hc : checkDMARC (.ok records) = dmarcOne d := by
      simp only [checkDMARC, hf, dmarcOfFlat]
    refine ⟨hc, ?_, ?_, ?_, ?_, ?_⟩
    · intro h
      simp [dmarcPolicy, h]
    · intro hp
      rw [hc]
      simp [dmarcOne, hp]
    · intro hp
      rw [hc]
      simp [dmarcOne, hp]
    · intro hp
      rw [hc]
      constructor
      · simp [dmarcOne, hp]
      · have hs : (dmarcOne d).summary = "DMARC set to reject — strongest protection" := by
          simp [dmarcOne, hp]
        rw [hs]
        decide
    · intro h1 h2 h3
      rw [hc]
      constructor
      · simp [dmarcOne, h1, h2, h3]
      · have hs : (dmarcOne d).summary = "DMARC record found with policy: " ++ dmarcPolicy d := by
          simp [dmarcOne, h1, h2, h3]
        rw [hs]
        exact containsStr_append_right (containsStr_iff.mpr (List.infix_refl _))

/-- Witness for C3: a concrete reject record passes mentioning reject in
the summary, and a concrete `p=none` record warns. -/
theorem C3_checkDMARC_policy_witness :
    ((checkDMARC (.ok [["v=DMARC1; p=reject; rua=mailto:x@y.com"]])).status = .pass
      ∧ containsStr (checkDMARC (.ok [["v=DMARC1; p=reject; rua=mailto:x@y.com"]])).summary "reject" = true)
    ∧ (checkDMARC (.ok [["v=DMARC1; p=none"]])).status = .warn :=
  ⟨((C3_checkDMARC_policy.2 [["v=DMARC1; p=reject; rua=mailto:x@y.com"]]
      "v=DMARC1; p=reject; rua=mailto:x@y.com" [] (by decide)).2.2.2.2.1 (by decide)),
   ((C3_checkDMARC_policy.2 [["v=DMARC1; p=none"]]
      "v=DMARC1; p=none" [] (by decide)).2.2.1 (by decide))⟩

/-- Claim C10: the policy pattern requires a semicolon (then optional
whitespace) before `p=`; a first matching record with no such occurrence
— such as one whose only policy-like token is `sp=`, or whose `p=` is
not preceded by a semicolon — yields policy `none` and status `warn`. -/
theorem C10_dmarc_policy_needs_semicolon :
    (∀ (records : List (List String)) (d : String) (rest : List String),
      (records.map concatAll).filter (fun r => startsWithStr r "v=DMARC1") = d :: rest →
      findPolicy d.data = none →
      dmarcPolicy d = "none" ∧ (checkDMARC (.ok records)).status = .warn)
    ∧ findPolicy ("v=DMARC1; sp=reject").data = none
    ∧ dmarcPolicy "v=DMARC1; sp=reject" = "none"
    ∧ (checkDMARC (.ok [["v=DMARC1; sp=reject"]])).status = .warn
    ∧ findPolicy ("v=DMARC1 p=reject").data = none
    ∧ dmarcPolicy "v=DMARC1 p=reject" = "none"
    ∧ (checkDMARC (.ok [["v=DMARC1 p=reject"]])).status = .warn := by
  refine ⟨?_, by decide, by decide, by decide, by decide, by decide, by decide⟩
  intro records d rest hf hnone
  have hpol : dmarcPolicy d = "none" := by simp [dmarcPolicy, hnone]
  refine ⟨hpol, ?_⟩
  have hc : checkDMARC (.ok records) = dmarcOne d := by
    simp only [checkDMARC, hf, dmarcOfFlat]
  rw [hc]
  simp [dmarcOne, hpol]

/-- Witness for C10: the general implication instantiated at the
subdomain-policy record. -/
theorem C10_dmarc_policy_needs_semicolon_witness :
    dmarcPolicy "v=DMARC1; sp=quarantine" = "none"
    ∧ (checkDMARC (.ok [["v=DMARC1; sp=quarantine"]])).status = .warn :=
  C10_dmarc_policy_needs_semicolon.1 [["v=DMARC1; sp=quarantine"]]
    "v=DMARC1; sp=quarantine" [] (by decide) (by decide)

/-- Claim C7: for every outcome of the selector probes, zero hits warn,
one or more hits pass with every matched selector named in the summary,
and the DKIM check's status is always `warn` or `pass` — it has no
`error` state. -/
theorem C7_checkDKIM_warn_or_pass :
    ∀ resolve : String → Except DnsErr (List (List String)),
      ((checkDKIM resolve).status = .warn ∨ (checkDKIM resolve).status = .pass)
      ∧ (dkimFound resolve = [] → (checkDKIM resolve).status = .warn)
      ∧ (∀ f rest, dkimFound resolve = f :: rest →
          (checkDKIM resolve).status = .pass
          ∧ ∀ p ∈ dkimFound resolve, containsStr (checkDKIM resolve).summary p.1 = true) := by
  intro resolve
  rcases hd : dkimFound resolve with _ | ⟨f, rest⟩
  · refine ⟨Or.inl ?_, fun _ => ?_, fun f rest hctr => ?_⟩
    · simp [checkDKIM, hd, dkimOfFound]
    · simp [checkDKIM, hd, dkimOfFound]
    · cases hctr
  · have hc : checkDKIM resolve = dkimOfFound (f :: rest) := by
      rw [checkDKIM, hd]
    refine ⟨Or.inr ?_, fun hctr => ?_, fun g grest hg => ?_⟩
    · rw [hc]; rfl
    · cases hctr
    · refine ⟨by rw [hc]; rfl, ?_⟩
      intro p hp
      rw [hc]
      show containsStr ("DKIM configured (" ++ toString (f :: rest).length ++ " selector" ++
        (if (f :: rest).length > 1 then "s" else "") ++ " found: " ++
        joinSep ", " ((f :: rest).map Prod.fst) ++ ")") p.1 = true
      apply containsStr_append_left
      apply containsStr_append_right
      exact containsStr_iff.mpr
        (infix_joinSep ", " _ p.1 (List.mem_map_of_mem Prod.fst hp))

/-- Witness for C7: an all-failing resolver warns; a resolver answering
the google selector passes with google named in the summary. -/
theorem C7_checkDKIM_warn_or_pass_witness :
    (checkDKIM (fun _ => .error ⟨"ENOTFOUND", "not found"⟩)).status = .warn
    ∧ (checkDKIM (fun s => if s = "google" then .ok [["v=DKIM1; p=abc"]]
        else .error ⟨"ENOTFOUND", "not found"⟩)).status = .pass
    ∧ containsStr (checkDKIM (fun s => if s = "google" then .ok [["v=DKIM1; p=abc"]]
        else .error ⟨"ENOTFOUND", "not found"⟩)).summary "google" = true := by
  refine ⟨(C7_checkDKIM_warn_or_pass (fun _ => .error ⟨"ENOTFOUND", "not found"⟩)).2.1
    (by decide), ?_, ?_⟩
  · exact ((C7_checkDKIM_warn_or_pass _).2.2 ("google", takeStr "v=DKIM1; p=abc" 120 ++ "...")
      [] (by decide)).1
  · exact ((C7_checkDKIM_warn_or_pass _).2.2 ("google", takeStr "v=DKIM1; p=abc" 120 ++ "...")
      [] (by decide)).2 ("google", takeStr "v=DKIM1; p=abc" 120 ++ "...") (by decide)

/-- Claim C6: an empty or absent MX record set fails; otherwise the
records are sorted ascending by priority, the lowest-priority entry is
primary, the provider comes from the fixed first-match-wins fragment
table (defaulting to Unknown), the raw payload lists every
`priority exchange` pair in ascending order, and primary host
aspmx.l.google.com yields Google Workspace with a pass. -/
theorem C6_checkMX_sort_and_provider :
    (checkMX (.ok [])).status = .fail
    ∧ (∀ e : DnsErr, isNotFound e = true → (checkMX (.error e)).status = .fail)
    ∧ (∀ (r : MxRecord) (rs : List MxRecord),
        (checkMX (.ok (r :: rs))).status = .pass
        ∧ (checkMX (.ok (r :: rs))).raw =
            some (.strs ((sortMx (r :: rs)).map
              (fun x => toString x.priority ++ " " ++ x.exchange)))
        ∧ List.Pairwise (fun a b : MxRecord => a.priority ≤ b.priority) (sortMx (r :: rs))
        ∧ (∀ x ∈ r :: rs, ((sortMx (r :: rs)).headD r).priority ≤ x.priority)
        ∧ containsStr (checkMX (.ok (r :: rs))).summary
            (detectProvider (toLowerStr ((sortMx (r :: rs)).headD r).exchange)).1 = true)
    ∧ (detectProvider "aspmx.l.google.com").1 = "Google Workspace"
    ∧ (checkMX (.ok [⟨10, "aspmx.l.google.com"⟩])).status = .pass
    ∧ containsStr (checkMX (.ok [⟨10, "aspmx.l.google.com"⟩])).summary "Google Workspace" = true := by
  refine ⟨by decide, ?_, ?_, by decide, by decide, by decide⟩
  · intro e h
    simp [checkMX, h]
  · intro r rs
    refine ⟨rfl, rfl, sortMx_sorted (r :: rs), ?_, ?_⟩
    · intro x hx
      have hperm := sortMx_perm (r :: rs)
      have hsort := sortMx_sorted (r :: rs)
      have hx2 : x ∈ sortMx (r :: rs) := hperm.mem_iff.mpr hx
      rcases hs : sortMx (r :: rs) with _ | ⟨p, ps⟩
      · rw [hs] at hx2; cases hx2
      · rw [hs] at hx2 hsort
        simp only [List.headD_cons]
        rcases List.mem_cons.mp hx2 with rfl | hmem
        · exact le_refl _
        · exact List.rel_of_pairwise_cons hsort hmem
    · show containsStr ((detectProvider (toLowerStr ((sortMx (r :: rs)).headD r).exchange)).1 ++
        " detected (" ++ toString (r :: rs).length ++ " MX record" ++
        (if (r :: rs).length > 1 then "s" else "") ++ ")")
        (detectProvider (toLowerStr ((sortMx (r :: rs)).headD r).exchange)).1 = true
      apply containsStr_append_left
      apply containsStr_append_left
      apply containsStr_append_left
      apply containsStr_append_left
      apply containsStr_append_left
      exact containsStr_iff.mpr (List.infix_refl _)

/-- Witness for C6: the general pass branch instantiated at a concrete
two-record set with unequal priorities. -/
theorem C6_checkMX_sort_and_provider_witness :
    (checkMX (.ok [⟨20, "mx2.example.com"⟩, ⟨10, "mx1.example.com"⟩])).status = .pass
    ∧ (checkMX (.ok [⟨20, "mx2.example.com"⟩, ⟨10, "mx1.example.com"⟩])).raw =
        some (.strs ["10 mx1.example.com", "20 mx2.example.com"])
    ∧ (checkMX (.error ⟨"ENODATA", "no data"⟩)).status = .fail := by
  refine ⟨(C6_checkMX_sort_and_provider.2.2.1 ⟨20, "mx2.example.com"⟩
    [⟨10, "mx1.example.com"⟩]).1, ?_, C6_checkMX_sort_and_provider.2.1
    ⟨"ENODATA", "no data"⟩ (by decide)⟩
  have h := (C6_checkMX_sort_and_provider.2.2.1 ⟨20, "mx2.example.com"⟩
    [⟨10, "mx1.example.com"⟩]).2.1
  rw [h]
  decide

/-- Claim C5: a zone whose probe resolves goes to the listed partition
and one whose probe fails goes to clean; a nonempty listed set fails with
every listing named in the summary and the raw payload holding both
partitions; an empty listed set passes with all five clean zone names
reported. -/
theorem C5_checkBlacklists_partition :
    ∀ probe : String → Except DnsErr (List String),
      (∀ bl ∈ blTable,
        (dnsOk (probe bl.2) = true → bl.1 ∈ listedNames probe)
        ∧ (dnsOk (probe bl.2) = false → bl.1 ∈ cleanNames probe))
      ∧ (listedNames probe ≠ [] →
          (checkBlacklists probe).status = .fail
          ∧ (∀ n ∈ listedNames probe,
              containsStr (checkBlacklists probe).summary n = true)
          ∧ (checkBlacklists probe).raw =
              some (.parts (listedNames probe) (cleanNames probe)))
      ∧ (listedNames probe = [] →
          (checkBlacklists probe).status = .pass
          ∧ (cleanNames probe).length = 5
          ∧ (∀ n ∈ cleanNames probe,
              containsStr (checkBlacklists probe).detail n = true)
          ∧ (checkBlacklists probe).raw =
              some (.parts (listedNames probe) (cleanNames probe))) := by
  intro probe
  refine ⟨?_, ?_, ?_⟩
  · intro bl hbl
    constructor
    · intro h
      exact List.mem_map_of_mem Prod.fst (List.mem_filter.mpr ⟨hbl, h⟩)
    · intro h
      refine List.mem_map_of_mem Prod.fst (List.mem_filter.mpr ⟨hbl, ?_⟩)
      simp [h]
  · intro hne
    have hpos : 0 < (listedNames probe).length := List.length_pos.mpr hne
    refine ⟨by simp [checkBlacklists, hpos], ?_, by simp [checkBlacklists, hpos]⟩
    intro n hn
    have hs : (checkBlacklists probe).summary =
        "Listed on " ++ toString (listedNames probe).length ++ " blacklist" ++
        (if (listedNames probe).length > 1 then "s" else "") ++ ": " ++
        joinSep ", " (listedNames probe) := by
      simp [checkBlacklists, hpos]
    rw [hs]
    exact containsStr_append_right (containsStr_iff.mpr (infix_joinSep ", " _ n hn))
  · intro hemp
    have hnpos : ¬ (0 < (listedNames probe).length) := by simp [hemp]
    have hfil : blTable.filter (fun bl => dnsOk (probe bl.2)) = [] :=
      List.map_eq_nil_iff.mp hemp
    have hclean : blTable.filter (fun bl => !dnsOk (probe bl.2)) = blTable := by
      apply List.filter_eq_self.mpr
      intro bl hbl
      have := List.filter_eq_nil_iff.mp hfil bl hbl
      simp only [Bool.not_eq_true] at this ⊢
      simp [this]
    refine ⟨by simp [checkBlacklists, hnpos], ?_, ?_, by simp [checkBlacklists, hnpos]⟩
    · show ((blTable.filter (fun bl => !dnsOk (probe bl.2))).map Prod.fst).length = 5
      rw [hclean]
      rfl
    · intro n hn
      have hs : (checkBlacklists probe).detail =
          "Checked against: " ++ joinSep ", " (cleanNames probe) ++
          ". Your domain is clean on all checked blacklists." := by
        simp [checkBlacklists, hnpos]
      rw [hs]
      exact containsStr_append_left
        (containsStr_append_right (containsStr_iff.mpr (infix_joinSep ", " _ n hn)))

/-- Witness for C5: a probe that resolves only the Spamhaus zone fails
naming it; an all-failing probe passes with five clean names. -/
theorem C5_checkBlacklists_partition_witness :
    "Spamhaus DBL" ∈ listedNames
      (fun z => if z = "dbl.spamhaus.org" then .ok ["127.0.1.2"] else .error ⟨"ENOTFOUND", "nx"⟩)
    ∧ (checkBlacklists
        (fun z => if z = "dbl.spamhaus.org" then .ok ["127.0.1.2"] else .error ⟨"ENOTFOUND", "nx"⟩)).status = .fail
    ∧ (checkBlacklists (fun _ => .error ⟨"ENOTFOUND", "nx"⟩)).status = .pass
    ∧ (cleanNames (fun _ : String => .error ⟨"ENOTFOUND", "nx"⟩)).length = 5 :=
  ⟨((C5_checkBlacklists_partition _).1 ("Spamhaus DBL", "dbl.spamhaus.org")
      (by decide)).1 (by decide),
   ((C5_checkBlacklists_partition _).2.1 (by decide)).1,
   ((C5_checkBlacklists_partition _).2.2 (by decide)).1,
   ((C5_checkBlacklists_partition _).2.2 (by decide)).2.1⟩

/-- Claim C8: for SPF, DMARC and MX, a not-found class DNS failure
(ENODATA/ENOTFOUND) yields `fail` (absence treated as data), and every
other resolution failure yields `error` with the underlying message in
the detail (for SPF with summary "Could not check SPF"); in both cases a
check result is returned. -/
theorem C8_dns_error_mapping :
    ∀ e : DnsErr,
      (isNotFound e = true →
        (checkSPF (.error e)).status = .fail
        ∧ (checkSPF (.error e)).summary = "No SPF record found"
        ∧ (checkDMARC (.error e)).status = .fail
        ∧ (checkMX (.error e)).status = .fail)
      ∧ (isNotFound e = false →
        (checkSPF (.error e)).status = .error
        ∧ (checkSPF (.error e)).summary = "Could not check SPF"
        ∧ (checkSPF (.error e)).detail = e.message
        ∧ (checkDMARC (.error e)).status = .error
        ∧ (checkDMARC (.error e)).detail = e.message
        ∧ (checkMX (.error e)).status = .error
        ∧ (checkMX (.error e)).detail = e.message) := by
  intro e
  constructor
  · intro h
    simp [checkSPF, checkDMARC, checkMX, h]
  · intro h
    simp [checkSPF, checkDMARC, checkMX, h]

/-- Witness for C8: a concrete ENODATA failure fails all three checks
and a concrete timeout failure surfaces its message as an error. -/
theorem C8_dns_error_mapping_witness :
    ((checkSPF (.error ⟨"ENODATA", "queryTxt ENODATA"⟩)).status = .fail
      ∧ (checkMX (.error ⟨"ENODATA", "queryTxt ENODATA"⟩)).status = .fail)
    ∧ ((checkSPF (.error ⟨"ETIMEOUT", "queryTxt ETIMEOUT example.com"⟩)).status = .error
      ∧ (checkSPF (.error ⟨"ETIMEOUT", "queryTxt ETIMEOUT example.com"⟩)).detail =
          "queryTxt ETIMEOUT example.com") :=
  ⟨⟨((C8_dns_error_mapping ⟨"ENODATA", "queryTxt ENODATA"⟩).1 (by decide)).1,
    ((C8_dns_error_mapping ⟨"ENODATA", "queryTxt ENODATA"⟩).1 (by decide)).2.2.2⟩,
   ⟨((C8_dns_error_mapping ⟨"ETIMEOUT", "queryTxt ETIMEOUT example.com"⟩).2 (by decide)).1,
    ((C8_dns_error_mapping ⟨"ETIMEOUT", "queryTxt ETIMEOUT example.com"⟩).2 (by decide)).2.2.1⟩⟩

/-- Branch analysis of the single-record SPF branch: it warns carrying a
fix, or passes carrying none. -/
theorem spfOne_status_fix (s : String) :
    ((spfOne s).status = .warn ∧ (spfOne s).fix ≠ none)
    ∨ ((spfOne s).status = .pass ∧ (spfOne s).fix = none) := by
  unfold spfOne
  split
  · exact Or.inl ⟨rfl, by simp⟩
  · split
    · exact Or.inl ⟨rfl, by simp⟩
    · exact Or.inr ⟨rfl, rfl⟩

/-- Branch analysis of the first-record DMARC branch: it warns carrying a
fix, or passes carrying none. -/
theorem dmarcOne_status_fix (d : String) :
    ((dmarcOne d).status = .warn ∧ (dmarcOne d).fix ≠ none)
    ∨ ((dmarcOne d).status = .pass ∧ (dmarcOne d).fix = none) := by
  simp only [dmarcOne]
  split
  · exact Or.inl ⟨rfl, by simp⟩
  · split
    · exact Or.inr ⟨rfl, rfl⟩
    · split
      · exact Or.inr ⟨rfl, rfl⟩
      · exact Or.inr ⟨rfl, rfl⟩

/-- Claim C9: under every DNS outcome, each of the five checks carries a
fix only on `warn` or `fail`; `pass` and `error` results never do. -/
theorem C9_fix_only_on_warn_fail :
    (∀ txt, ((checkSPF txt).status = .pass ∨ (checkSPF txt).status = .error) →
      (checkSPF txt).fix = none)
    ∧ (∀ txt, ((checkDMARC txt).status = .pass ∨ (checkDMARC txt).status = .error) →
      (checkDMARC txt).fix = none)
    ∧ (∀ resolve, ((checkDKIM resolve).status = .pass ∨ (checkDKIM resolve).status = .error) →
      (checkDKIM resolve).fix = none)
    ∧ (∀ mx, ((checkMX mx).status = .pass ∨ (checkMX mx).status = .error) →
      (checkMX mx).fix = none)
    ∧ (∀ probe, ((checkBlacklists probe).status = .pass ∨ (checkBlacklists probe).status = .error) →
      (checkBlacklists probe).fix = none) := by
  refine ⟨?_, ?_, ?_, ?_, ?_⟩
  · intro txt h
    rcases txt with e | records
    · by_cases hnf : isNotFound e
      · simp [checkSPF, hnf] at h
      · simp [checkSPF, hnf]
    · have hc : checkSPF (.ok records) =
          spfOfFlat ((records.map concatAll).filter (fun r => startsWithStr r "v=spf1")) := rfl
      rw [hc] at h ⊢
      rcases hv : (records.map concatAll).filter (fun r => startsWithStr r "v=spf1")
        with _ | ⟨s, _ | ⟨s2, rest2⟩⟩
      · rw [hv] at h; simp [spfOfFlat] at h
      · rw [hv] at h
        simp only [spfOfFlat] at h ⊢
        rcases spfOne_status_fix s with ⟨hw, _⟩ | ⟨_, hfx⟩
        · rw [hw] at h; simp at h
        · exact hfx
      · rw [hv] at h; simp [spfOfFlat] at h
  · intro txt h
    rcases txt with e | records
    · by_cases hnf : isNotFound e
      · simp [checkDMARC, hnf] at h
      · simp [checkDMARC, hnf]
    · have hc : checkDMARC (.ok records) =
          dmarcOfFlat ((records.map concatAll).filter (fun r => startsWithStr r "v=DMARC1")) := rfl
      rw [hc] at h ⊢
      rcases hv : (records.map concatAll).filter (fun r => startsWithStr r "v=DMARC1")
        with _ | ⟨d, rest⟩
      · rw [hv] at h; simp [dmarcOfFlat] at h
      · rw [hv] at h
        simp only [dmarcOfFlat] at h ⊢
        rcases dmarcOne_status_fix d with ⟨hw, _⟩ | ⟨_, hfx⟩
        · rw [hw] at h; simp at h
        · exact hfx
  · intro resolve h
    rcases hd : dkimFound resolve with _ | ⟨f, rest⟩
    · have hc : checkDKIM resolve = dkimOfFound [] := by rw [checkDKIM, hd]
      rw [hc] at h; simp [dkimOfFound] at h
    · have hc : checkDKIM resolve = dkimOfFound (f :: rest) := by rw [checkDKIM, hd]
      rw [hc]; rfl
  · intro mx h
    rcases mx with e | records
    · by_cases hnf : isNotFound e
      · simp [checkMX, hnf] at h
      · simp [checkMX, hnf]
    · rcases records with _ | ⟨r, rs⟩
      · simp [checkMX] at h
      · rfl
  · intro probe h
    by_cases hpos : (listedNames probe).length > 0
    · simp [checkBlacklists, hpos] at h
    · simp [checkBlacklists, hpos]

/-- Witness for C9: a passing SPF result and an erroring MX result both
carry no fix. -/
theorem C9_fix_only_on_warn_fail_witness :
    (checkSPF (.ok [["v=spf1 -all"]])).fix = none
    ∧ (checkMX (.error ⟨"ETIMEOUT", "timeout"⟩)).fix = none :=
  ⟨C9_fix_only_on_warn_fail.1 (.ok [["v=spf1 -all"]]) (Or.inl (by decide)),
   C9_fix_only_on_warn_fail.2.2.2.1 (.error ⟨"ETIMEOUT", "timeout"⟩) (Or.inr (by decide))⟩

/-- The tail of the validation pattern accepts exactly a label-character
run, a dot, and an alphabetic TLD of length at least two. -/
theorem validRest_iff : ∀ l : List Char,
    validRest l = true ↔
      ∃ lab tld, l = lab ++ '.' :: tld ∧ lab.all isLabelChar = true ∧
        2 ≤ tld.length ∧ tld.all isAlphaChar = true := by
  intro l
  induction l with
  | nil =>
    simp only [validRest]
    constructor
    · intro h; cases h
    · rintro ⟨lab, tld, h, -, -, -⟩
      cases lab <;> simp at h
  | cons c rest ih =>
    by_cases hc : c = '.'
    · subst hc
      simp only [validRest, if_true]
      constructor
      · intro h
        rw [Bool.and_eq_true] at h
        exact ⟨[], rest, rfl, rfl, of_decide_eq_true h.1, h.2⟩
      · rintro ⟨lab, tld, heq, hlab, hlen, halpha⟩
        cases lab with
        | nil =>
          simp only [List.nil_append, List.cons.injEq] at heq
          rw [heq.2, Bool.and_eq_true]
          exact ⟨decide_eq_true hlen, halpha⟩
        | cons x lab2 =>
          simp only [List.cons_append, List.cons.injEq] at heq
          rw [← heq.1] at hlab
          simp [List.all_cons, isLabelChar, isAlnumChar, isAlphaChar] at hlab
    · simp only [validRest, if_neg hc]
      constructor
      · intro h
        rw [Bool.and_eq_true] at h
        rcases h with ⟨h1, h2⟩
        rcases ih.mp h2 with ⟨lab, tld, heq, hlab, hlen, halpha⟩
        refine ⟨c :: lab, tld, by rw [heq, List.cons_append], ?_, hlen, halpha⟩
        simp [List.all_cons, h1, hlab]
      · rintro ⟨lab, tld, heq, hlab, hlen, halpha⟩
        cases lab with
        | nil =>
          simp only [List.nil_append, List.cons.injEq] at heq
          exact absurd heq.1 hc
        | cons x lab2 =>
          simp only [List.cons_append, List.cons.injEq] at heq
          rw [← heq.1] at hlab
          simp only [List.all_cons, Bool.and_eq_true] at hlab
          rw [Bool.and_eq_true]
          exact ⟨hlab.1, ih.mpr ⟨lab2, tld, heq.2, hlab.2, hlen, halpha⟩⟩

/-- Counterexample to claim C4: the validation regular expression has a
single-label body, so the multi-label domain mail.example.com is
rejected, and validation runs on the raw input, so a domain with
surrounding whitespace is rejected rather than validated after
trimming. -/
theorem C4_counterexample_domain_validation :
    validDomain "mail.example.com" = false ∧ handlerDomain " example.com " = none := by
  constructor
  · decide
  · decide

/-- Claim C4 amended: validation accepts exactly the strings of one
label (alphanumeric first character, then alphanumerics or hyphens), a
dot, and an alphabetic TLD of at least two letters, case-insensitively;
multi-label domains are rejected; the pattern is applied to the raw
untrimmed input, and only an accepted domain is lowercased and trimmed
before the DNS lookups. -/
theorem C4_amended_domain_validation :
    (∀ s : String, validDomain s = true ↔ regexShape s.data)
    ∧ (∀ s d : String, handlerDomain s = some d →
        validDomain s = true ∧ d = trimStr (toLowerStr s))
    ∧ validDomain "example.com" = true
    ∧ validDomain "EXAMPLE.COM" = true
    ∧ validDomain "mail.example.com" = false
    ∧ handlerDomain " example.com " = none := by
  refine ⟨?_, ?_, by decide, by decide, by decide, by decide⟩
  · intro s
    rcases hd : s.data with _ | ⟨c, rest⟩
    · simp only [validDomain, hd, regexShape]
      constructor
      · intro h; cases h
      · rintro ⟨c, lab, tld, h, -⟩; cases h
    · simp only [validDomain, hd, regexShape]
      constructor
      · intro h
        rw [Bool.and_eq_true] at h
        rcases h with ⟨h1, h2⟩
        rcases (validRest_iff rest).mp h2 with ⟨lab, tld, heq, hlab, hlen, halpha⟩
        exact ⟨c, lab, tld, by rw [heq], h1, hlab, hlen, halpha⟩
      · rintro ⟨c2, lab, tld, heq, h1, hlab, hlen, halpha⟩
        rcases List.cons.injEq .. ▸ heq with ⟨e1, e2⟩
        rw [e1, Bool.and_eq_true]
        exact ⟨h1, (validRest_iff rest).mpr ⟨lab, tld, e2, hlab, hlen, halpha⟩⟩
  · intro s d h
    unfold handlerDomain at h
    by_cases hcond : (s.isEmpty || !validDomain s) = true
    · rw [if_pos hcond] at h; cases h
    · rw [if_neg hcond] at h
      injection h with h2
      simp only [Bool.or_eq_true, Bool.not_eq_true', not_or] at hcond
      refine ⟨?_, h2.symm⟩
      rcases Bool.eq_false_or_eq_true (validDomain s) with ht | hf
      · exact ht
      · exact absurd hf hcond.2

/-- Witness for C4 amended: the characterization and the normalization
fact instantiated at concrete accepted domains. -/
theorem C4_amended_domain_validation_witness :
    regexShape ("example.com").data
    ∧ (validDomain "ExAmple.COM" = true
        ∧ "example.com" = trimStr (toLowerStr "ExAmple.COM")) :=
  ⟨(C4_amended_domain_validation.1 "example.com").mp (by decide),
   C4_amended_domain_validation.2.1 "ExAmple.COM" "example.com" (by decide)⟩
